import Mathlib

/-!
Shallow embedding of the HTTP protocol parser (CHTTPProtocol) and the X11
secondary-screen key synthesizer (CXWindowsSecondaryScreen) of the synergy
input-sharing utility, together with theorems settling the specification
claims about them.

Strings (CString) are modelled as List Char.  Stream input is modelled as the
full byte sequence remaining on the stream: CHTTPProtocol::readLine and
CHTTPProtocol::readBlock only ever consume from the front of the
concatenation of the temporary buffer and the stream, so a single list is a
faithful model of that pair.  Fallible routines return Except Nat, the Nat
being the HTTP status code carried by the thrown XHTTP exception.
-/

/-- CHTTPProtocol::readLine: read up to and including a CRLF; the returned
pair is (line without CRLF, remaining input).  If the stream is exhausted
without a CRLF, the whole leftover is returned as the line. -/
def readLine : List Char → List Char × List Char
  | [] => ([], [])
  | '\r' :: '\n' :: rest => ([], rest)
  | c :: rest =>
    let p := readLine rest
    (c :: p.1, p.2)

/-- CHTTPProtocol::readBlock: read numBytes bytes, or as many as remain if
the stream runs out first. -/
def readBlock (numBytes : Nat) (input : List Char) : List Char × List Char :=
  (input.take numBytes, input.drop numBytes)

/-- Does hay begin with pat? (helper for the substring search performed by
CString::find). -/
def seqStarts : List Char → List Char → Bool
  | _, [] => true
  | [], _ :: _ => false
  | h :: hs, p :: ps => h == p && seqStarts hs ps

/-- Is pat a contiguous substring of hay?  This is the semantics of
CString::find(p) == npos negated: find returns a position exactly when the
whole needle occurs as a substring. -/
def seqFind : List Char → List Char → Bool
  | [], pat => pat.isEmpty
  | h :: hs, pat => seqStarts (h :: hs) pat || seqFind hs pat

/-- The effective needle used by CHTTPProtocol::isValidToken.  The C++
source writes the literal "()<>@,;:\\\"/[]?={} " followed by the control
characters \0\1...\37\177, but std::string::find(const char*) measures the
needle with strlen, which stops at the embedded NUL: the effective needle is
only the 18 punctuation/space characters before the NUL, and the control
characters are dead text. -/
def tokenSeparators : List Char := "()<>@,;:\\\"/[]?=\x7b\x7d ".toList

/-- CHTTPProtocol::isValidToken: token.find(needle) == npos.  Note this is
std::string::find (whole-substring search), not find_first_of: the token is
"invalid" only when it contains the entire 18-character needle as a
contiguous substring. -/
def isValidToken (token : List Char) : Bool :=
  ! seqFind token tokenSeparators

/-- The method-token and version checks of CHTTPProtocol::readRequest
(the two throw sites directly after the request line is parsed):
an invalid method token throws XHTTP(400), then
majorVersion < 1 || minorVersion < 0 throws XHTTP(400). -/
def requestLineCheck (method : List Char) (major minor : Int) : Except Nat Unit :=
  if ! isValidToken method then Except.error 400
  else if major < 1 ∨ minor < 0 then Except.error 400
  else Except.ok ()

/-- The CHTTPRequest record built by the parser.  The header container is an
ordered list of values plus a name-to-index side map. -/
structure CHTTPRequest where
  m_method : List Char
  m_uri : List Char
  m_majorVersion : Int
  m_minorVersion : Int
  m_headers : List (List Char)
  m_headerIndexByName : List (List Char × Nat)
  m_body : List Char
deriving DecidableEq, Repr

/-- A fresh CHTTPRequest as allocated at the start of readRequest. -/
def emptyRequest : CHTTPRequest :=
  { m_method := [], m_uri := [], m_majorVersion := 0, m_minorVersion := 0,
    m_headers := [], m_headerIndexByName := [], m_body := [] }

/-- CHTTPUtil::CaselessCmp::equal: two strings are equal when neither is
lexicographically less than the other under caseless comparison; for the
ASCII data involved this is equality of the tolower images. -/
def caselessEq (a b : List Char) : Bool :=
  a.map Char.toLower == b.map Char.toLower

/-- Modelled from the spec: CHTTPRequest::CHeaderMap is declared in
CHTTPProtocol.h, which is not part of the given sources; per the spec the
name-to-index map is case-insensitive ("name→index map into that list
(case-insensitive)"), matching the CaselessCmp comparator defined alongside
it.  Lookup returns the index stored for a caselessly equal name. -/
def mapFind (m : List (List Char × Nat)) (name : List Char) : Option Nat :=
  match m.find? (fun e => caselessEq e.1 name) with
  | none => none
  | some e => some e.2

/-- Append a single comma to the last stored header value (the effect of
the continuation branch of CHTTPProtocol::readHeaders, see
processHeaderLine). -/
def withLastComma : List (List Char) → List (List Char)
  | [] => []
  | [x] => [x ++ [',']]
  | x :: y :: xs => x :: withLastComma (y :: xs)

/-- The loop body of CHTTPProtocol::readHeaders for one non-empty line.
A line starting with space or tab is a continuation: with no previous header
it throws XHTTP(400); otherwise the code executes
m_headers.back() += "," followed by m_headers.back() == line — the second
statement is an equality comparison whose result is discarded, so only the
comma is appended and the continuation text is lost.
Other lines are split at the first colon by std::getline: the name is
everything before the colon (the whole line if there is no colon) and the
value is everything after it (empty if there is no colon, since the failed
getline leaves the string empty).  An invalid name token throws XHTTP(400).
A new name is appended to both containers; a repeated name appends
"," ++ value to the previously stored value. -/
def processHeaderLine (line : List Char) (req : CHTTPRequest) : Except Nat CHTTPRequest :=
  if line.head? = some ' ' ∨ line.head? = some '\t' then
    if req.m_headers = [] then Except.error 400
    else Except.ok { req with m_headers := withLastComma req.m_headers }
  else
    let name := line.takeWhile (fun c => c != ':')
    let value := if name.length < line.length then line.drop (name.length + 1) else []
    if ! isValidToken name then Except.error 400
    else
      match mapFind req.m_headerIndexByName name with
      | none =>
        Except.ok { req with
          m_headerIndexByName := req.m_headerIndexByName ++ [(name, req.m_headers.length)],
          m_headers := req.m_headers ++ [value] }
      | some idx =>
        Except.ok { req with
          m_headers := req.m_headers.set idx ((req.m_headers.getD idx []) ++ ',' :: value) }

/-- CHTTPProtocol::readHeaders: read lines until a blank line, feeding each
non-empty line to the loop body.  The fuel argument only bounds the number
of loop iterations; every iteration on a non-empty line strictly consumes
input, so fuel = input.length + 1 (as supplied by readHeaders) is always
sufficient and the 0-fuel branch is unreachable. -/
def readHeadersAux : Nat → List Char → CHTTPRequest → Except Nat (CHTTPRequest × List Char)
  | 0, _, _ => Except.error 400
  | fuel + 1, input, req =>
    let p := readLine input
    if p.1 = [] then Except.ok (req, p.2)
    else
      match processHeaderLine p.1 req with
      | Except.error e => Except.error e
      | Except.ok req2 => readHeadersAux fuel p.2 req2

/-- CHTTPProtocol::readHeaders on the modelled input stream. -/
def readHeaders (input : List Char) (req : CHTTPRequest) : Except Nat (CHTTPRequest × List Char) :=
  readHeadersAux (input.length + 1) input req

/-- Value of a hexadecimal digit, if the character is one. -/
def hexDigitVal (c : Char) : Option Nat :=
  if '0' ≤ c ∧ c ≤ '9' then some (c.toNat - 48)
  else if 'a' ≤ c ∧ c ≤ 'f' then some (c.toNat - 87)
  else if 'A' ≤ c ∧ c ≤ 'F' then some (c.toNat - 55)
  else none

/-- The istringstream >> std::hex >> size parse used by
CHTTPProtocol::readChunk: skip leading whitespace, then read a maximal
non-empty run of hexadecimal digits (failing when there is none); trailing
characters on the line are ignored. -/
def parseHexNat (line : List Char) : Option Nat :=
  let rest := line.dropWhile (fun c => c == ' ' || c == '\t')
  let digits := rest.takeWhile (fun c => (hexDigitVal c).isSome)
  if digits = [] then none
  else some (digits.foldl (fun acc c => 16 * acc + (hexDigitVal c).getD 0) 0)

/-- The istringstream >> length decimal parse used for Content-Length:
skip leading whitespace, then a maximal non-empty run of decimal digits. -/
def parseDecNat (line : List Char) : Option Nat :=
  let rest := line.dropWhile (fun c => c == ' ' || c == '\t')
  let digits := rest.takeWhile (fun c => c.isDigit)
  if digits = [] then none
  else some (digits.foldl (fun acc c => 10 * acc + (c.toNat - 48)) 0)

/-- CHTTPProtocol::readChunk: parse the hex size line (XHTTP(400) when
unparseable); size 0 returns the empty chunk at once; otherwise read exactly
size bytes (XHTTP(400) on a short read), then a line that must be empty
(XHTTP(400) otherwise). -/
def readChunk (input : List Char) : Except Nat (List Char × List Char) :=
  let p := readLine input
  match parseHexNat p.1 with
  | none => Except.error 400
  | some size =>
    if size = 0 then Except.ok ([], p.2)
    else
      let b := readBlock size p.2
      if b.1.length ≠ size then Except.error 400
      else
        let q := readLine b.2
        if q.1 ≠ [] then Except.error 400
        else Except.ok (b.1, q.2)

/-- The do-while chunk loop of CHTTPProtocol::readRequest: keep appending
chunks to the body while each readChunk contributes at least one byte; the
zero-size chunk contributes nothing and ends the loop.  Fuel bounds the
iterations; every productive iteration consumes input, so
fuel = input.length + 1 (as supplied by readChunks) is always sufficient
and the 0-fuel branch is unreachable. -/
def readChunksAux : Nat → List Char → Except Nat (List Char × List Char)
  | 0, _ => Except.error 400
  | fuel + 1, input =>
    match readChunk input with
    | Except.error e => Except.error e
    | Except.ok d =>
      if d.1 = [] then Except.ok ([], d.2)
      else
        match readChunksAux fuel d.2 with
        | Except.error e => Except.error e
        | Except.ok b => Except.ok (d.1 ++ b.1, b.2)

/-- The chunked-body reading phase of CHTTPProtocol::readRequest. -/
def readChunks (input : List Char) : Except Nat (List Char × List Char) :=
  readChunksAux (input.length + 1) input

/-- The body-framing condition of CHTTPProtocol::readRequest (the throw at
"HTTP method/body mismatch"): the request is rejected with 400 exactly when
(neither Transfer-Encoding nor Content-Length is present) differs from
(the method is GET or HEAD). -/
def framingMismatch (req : CHTTPRequest) : Bool :=
  ((mapFind req.m_headerIndexByName ("Transfer-Encoding".toList)).isNone &&
   (mapFind req.m_headerIndexByName ("Content-Length".toList)).isNone) !=
  (req.m_method == "GET".toList || req.m_method == "HEAD".toList)

/-- CHTTPProtocol::readRequest from the point after the request line has
been parsed and checked: parse headers, require Host for HTTP/1.1 and up,
check body framing, then read the body.  Transfer-Encoding takes precedence:
it must caselessly equal "chunked" (else XHTTP(501)); chunks are read until
the zero chunk and footer headers are parsed with the same header routine.
Otherwise Content-Length, when present, is parsed (XHTTP(400) when
unparseable) and exactly that many bytes are read (XHTTP(400) when the
stream is short). -/
def readRequestAfterLine (req0 : CHTTPRequest) (input : List Char) : Except Nat CHTTPRequest :=
  match readHeaders input req0 with
  | Except.error e => Except.error e
  | Except.ok pr =>
    let req := pr.1
    let rest := pr.2
    if (req.m_majorVersion > 1 ∨ (req.m_majorVersion = 1 ∧ req.m_minorVersion ≥ 1)) ∧
        mapFind req.m_headerIndexByName ("Host".toList) = none then Except.error 400
    else if framingMismatch req then Except.error 400
    else
      match mapFind req.m_headerIndexByName ("Transfer-Encoding".toList) with
      | some idx =>
        if ! caselessEq (req.m_headers.getD idx []) ("chunked".toList) then Except.error 501
        else
          match readChunks rest with
          | Except.error e => Except.error e
          | Except.ok br =>
            match readHeaders br.2 { req with m_body := req.m_body ++ br.1 } with
            | Except.error e => Except.error e
            | Except.ok fr => Except.ok fr.1
      | none =>
        match mapFind req.m_headerIndexByName ("Content-Length".toList) with
        | some idx =>
          match parseDecNat (req.m_headers.getD idx []) with
          | none => Except.error 400
          | some len =>
            let b := readBlock len rest
            if b.1.length ≠ len then Except.error 400
            else Except.ok { req with m_body := b.1 }
        | none => Except.ok req

/-- The CHTTPReply record consumed by CHTTPProtocol::reply. -/
structure CHTTPReply where
  m_majorVersion : Int
  m_minorVersion : Int
  m_status : Int
  m_reason : List Char
  m_method : List Char
  m_headers : List (List Char × List Char)
  m_body : List Char
deriving DecidableEq, Repr

/-- The body-suppression test of CHTTPProtocol::reply: hasBody is false when
the status is 1xx, 204 or 304. -/
def replyHasBody (status : Int) : Bool :=
  ! (status / 100 == 1 || status == 204 || status == 304)

/-- The header-adjustment pass of CHTTPProtocol::reply: drop every header
caselessly named Content-Length, Date or Transfer-Encoding. -/
def stripReplyHeaders (hs : List (List Char × List Char)) : List (List Char × List Char) :=
  hs.filter (fun h =>
    ! (caselessEq h.1 ("Content-Length".toList) ||
       caselessEq h.1 ("Date".toList) ||
       caselessEq h.1 ("Transfer-Encoding".toList)))

/-- Decimal rendering of an integer, as ostringstream operator<< produces. -/
def intChars (i : Int) : List Char := (toString i).toList

/-- Decimal rendering of a size, as ostringstream operator<< produces. -/
def natChars (n : Nat) : List Char := (toString n).toList

/-- The carriage-return line-feed pair. -/
def crlf : List Char := ['\r', '\n']

/-- The header bytes written by CHTTPProtocol::reply: status line, Date
(the formatted time is a parameter since it comes from the system clock),
the surviving caller headers in order, Content-Length only when hasBody is
true, then Connection: close and the blank line. -/
def replyHeaderBytes (date : List Char) (r : CHTTPReply) (hasBody : Bool) : List Char :=
  "HTTP/".toList ++ intChars r.m_majorVersion ++ ['.'] ++ intChars r.m_minorVersion ++
    [' '] ++ intChars r.m_status ++ [' '] ++ r.m_reason ++ crlf ++
  "Date: ".toList ++ date ++ crlf ++
  (stripReplyHeaders r.m_headers).foldr (fun h acc => h.1 ++ ": ".toList ++ h.2 ++ crlf ++ acc) [] ++
  (if hasBody then "Content-Length: ".toList ++ natChars r.m_body.length ++ crlf else []) ++
  "Connection: close".toList ++ crlf ++ crlf

/-- CHTTPProtocol::reply: the pair of byte sequences written to the stream,
(header bytes, body bytes).  Body bytes are written only when hasBody is
true and the originating method is not HEAD. -/
def reply (date : List Char) (r : CHTTPReply) : List Char × List Char :=
  let hasBody := replyHasBody r.m_status
  (replyHeaderBytes date r hasBody,
   if hasBody && r.m_method != "HEAD".toList then r.m_body else [])

/-- X11 ShiftMask modifier bit. -/
def ShiftMask : Nat := 1

/-- X11 LockMask modifier bit. -/
def LockMask : Nat := 2

/-- X11 keysym XK_Tab. -/
def XK_Tab : Nat := 0xff09

/-- X11 keysym XK_ISO_Left_Tab. -/
def XK_ISO_Left_Tab : Nat := 0xfe20

/-- X11 keysym XK_Home. -/
def XK_Home : Nat := 0xff50

/-- X11 keysym XK_Left. -/
def XK_Left : Nat := 0xff51

/-- X11 keysym XK_Up. -/
def XK_Up : Nat := 0xff52

/-- X11 keysym XK_Right. -/
def XK_Right : Nat := 0xff53

/-- X11 keysym XK_Down. -/
def XK_Down : Nat := 0xff54

/-- X11 keysym XK_Prior. -/
def XK_Prior : Nat := 0xff55

/-- X11 keysym XK_Next. -/
def XK_Next : Nat := 0xff56

/-- X11 keysym XK_End. -/
def XK_End : Nat := 0xff57

/-- X11 keysym XK_Insert. -/
def XK_Insert : Nat := 0xff63

/-- X11 keysym XK_KP_Home. -/
def XK_KP_Home : Nat := 0xff95

/-- X11 keysym XK_KP_Left. -/
def XK_KP_Left : Nat := 0xff96

/-- X11 keysym XK_KP_Up. -/
def XK_KP_Up : Nat := 0xff97

/-- X11 keysym XK_KP_Right. -/
def XK_KP_Right : Nat := 0xff98

/-- X11 keysym XK_KP_Down. -/
def XK_KP_Down : Nat := 0xff99

/-- X11 keysym XK_KP_Prior. -/
def XK_KP_Prior : Nat := 0xff9a

/-- X11 keysym XK_KP_Next. -/
def XK_KP_Next : Nat := 0xff9b

/-- X11 keysym XK_KP_End. -/
def XK_KP_End : Nat := 0xff9c

/-- X11 keysym XK_KP_Insert. -/
def XK_KP_Insert : Nat := 0xff9e

/-- X11 keysym XK_KP_Delete. -/
def XK_KP_Delete : Nat := 0xff9f

/-- X11 keysym XK_Delete. -/
def XK_Delete : Nat := 0xffff

/-- Modelled from the spec: the KeyID constants live in a header not among
the given sources.  findKeyCode maps the 0xef00 KeyID page to keysyms by
adding 0x1000, so the caps-lock KeyID corresponding to XK_Caps_Lock
(0xffe5) is 0xefe5. -/
def kKeyCapsLock : Nat := 0xefe5

/-- Modelled from the spec: num-lock KeyID corresponding to XK_Num_Lock
(0xff7f), see kKeyCapsLock. -/
def kKeyNumLock : Nat := 0xef7f

/-- Modelled from the spec: the left-tab KeyID on the 0xee00 page that
findKeyCode sends to XK_ISO_Left_Tab (0xfe20). -/
def kKeyLeftTab : Nat := 0xee20

/-- Modelled from the spec: the KeyModifier mask bits of the synergy key
protocol (header not among the given sources).  Only their distinctness
matters here; maskToX translates them to X11 bits. -/
def KeyModifierShift : Nat := 0x0001

/-- Modelled from the spec: control bit of the KeyModifier mask. -/
def KeyModifierControl : Nat := 0x0002

/-- Modelled from the spec: alt bit of the KeyModifier mask. -/
def KeyModifierAlt : Nat := 0x0004

/-- Modelled from the spec: meta bit of the KeyModifier mask. -/
def KeyModifierMeta : Nat := 0x0008

/-- Modelled from the spec: caps-lock bit of the KeyModifier mask. -/
def KeyModifierCapsLock : Nat := 0x1000

/-- Modelled from the spec: num-lock bit of the KeyModifier mask. -/
def KeyModifierNumLock : Nat := 0x2000

/-- Modelled from the spec: scroll-lock bit of the KeyModifier mask. -/
def KeyModifierScrollLock : Nat := 0x4000

/-- Bitwise x & ~y on 32-bit unsigned values. -/
def andNot (x y : Nat) : Nat := x &&& (0xffffffff ^^^ y)

/-- A single synthetic key event, CXWindowsSecondaryScreen::Keystroke. -/
structure Keystroke where
  m_keycode : Nat
  m_press : Bool
  m_repeat : Bool
deriving DecidableEq, Repr

/-- CSecondaryScreen::EKeyAction. -/
inductive EKeyAction where
  | kPress
  | kRepeat
  | kRelease
deriving DecidableEq, Repr

/-- An entry of CXWindowsSecondaryScreen::KeyCodeMap built by
updateKeycodeMap. -/
structure KeyCodeMask where
  m_keycode : Nat
  m_keyMask : Nat
  m_keyMaskMask : Nat
deriving DecidableEq, Repr

/-- The state of CXWindowsSecondaryScreen consulted by the key synthesizer:
the persistent modifier mask, the 256-entry down-key shadow table (as a
function from keycode), the modifier tables rebuilt by updateModifierMap and
updateKeycodeMap, the half-duplex flags, and XConvertCase as an environment
function (an Xlib call returning the lower/upper pair for a keysym). -/
structure ScreenState where
  m_mask : Nat
  m_keys : Nat → Bool
  m_modifierMask : Nat
  m_toggleModifierMask : Nat
  m_numLockMask : Nat
  m_capsLockMask : Nat
  m_scrollLockMask : Nat
  m_capsLockHalfDuplex : Bool
  m_numLockHalfDuplex : Bool
  m_keysPerModifier : Nat
  m_modifierToKeycode : List Nat
  m_keycodeToModifier : Nat → Option Nat
  m_keycodeMap : Nat → Option KeyCodeMask
  convertCase : Nat → Nat × Nat

/-- CXWindowsSecondaryScreen::maskToX: translate KeyModifier bits to X11
modifier bits. -/
def maskToX (s : ScreenState) (inMask : Nat) : Nat :=
  (if inMask &&& KeyModifierShift ≠ 0 then ShiftMask else 0) |||
  (if inMask &&& KeyModifierControl ≠ 0 then 4 else 0) |||
  (if inMask &&& KeyModifierAlt ≠ 0 then 8 else 0) |||
  (if inMask &&& KeyModifierMeta ≠ 0 then 64 else 0) |||
  (if inMask &&& KeyModifierCapsLock ≠ 0 then s.m_capsLockMask else 0) |||
  (if inMask &&& KeyModifierNumLock ≠ 0 then s.m_numLockMask else 0) |||
  (if inMask &&& KeyModifierScrollLock ≠ 0 then s.m_scrollLockMask else 0)

/-- The X11 IsKeypadKey macro: XK_KP_Space through XK_KP_Equal. -/
def isKeypadKey (ks : Nat) : Bool :=
  decide (0xff80 ≤ ks ∧ ks ≤ 0xffbd)

/-- The X11 IsPrivateKeypadKey macro: 0x11000000 through 0x1100ffff. -/
def isPrivateKeypadKey (ks : Nat) : Bool :=
  decide (0x11000000 ≤ ks ∧ ks ≤ 0x1100ffff)

/-- The KeyID-to-keysym translation at the head of
CXWindowsSecondaryScreen::findKeyCode: Latin-1 ids map to themselves, the
0xee00 page only knows the left-tab key, the 0xef00 page maps into the
0xff00 miscellany page, and every other page is unknown (keysym 0). -/
def keysymForId (id : Nat) : Nat :=
  if id &&& 0xffffff00 = 0 then id
  else if id &&& 0xffffff00 = 0xee00 then
    (if id = kKeyLeftTab then XK_ISO_Left_Tab else 0)
  else if id &&& 0xffffff00 = 0xef00 then id - 0xef00 + 0xff00
  else 0

/-- The output-mask computation at the tail of
CXWindowsSecondaryScreen::findKeyCode: clear the bits the keycode is
sensitive to, then handle keypad keys with num-lock, or the
shift/caps-lock interaction (consulting XConvertCase for case-convertible
keysyms), then or in whatever other modifiers the keycode needs. -/
def computeMaskOut (s : ScreenState) (keysym maskIn : Nat) (entry : KeyCodeMask) : Nat :=
  let maskOut := andNot maskIn entry.m_keyMaskMask
  if isKeypadKey keysym || isPrivateKeypadKey keysym then
    if s.m_mask &&& s.m_numLockMask ≠ 0 then
      (andNot maskOut entry.m_keyMask) ||| s.m_numLockMask
    else
      andNot (maskOut ||| entry.m_keyMask) s.m_numLockMask
  else
    let maskShift0 := entry.m_keyMask &&& ShiftMask
    let maskShift :=
      if maskShift0 ≠ 0 ∧ s.m_mask &&& s.m_capsLockMask ≠ 0 then
        (if (s.convertCase keysym).1 ≠ (s.convertCase keysym).2 then s.m_capsLockMask
         else maskShift0 ||| s.m_capsLockMask)
      else maskShift0
    maskOut ||| maskShift ||| andNot entry.m_keyMask (ShiftMask ||| LockMask)

/-- The backup-keysym switch of CXWindowsSecondaryScreen::findKeyCode:
numeric-keypad navigation keys fall back to their plain equivalents, and
ISO left tab falls back to Tab with Shift forced into the mask. -/
def kpBackup (keysym maskIn : Nat) : Option (Nat × Nat) :=
  if keysym = XK_KP_Home then some (XK_Home, maskIn)
  else if keysym = XK_KP_Left then some (XK_Left, maskIn)
  else if keysym = XK_KP_Up then some (XK_Up, maskIn)
  else if keysym = XK_KP_Right then some (XK_Right, maskIn)
  else if keysym = XK_KP_Down then some (XK_Down, maskIn)
  else if keysym = XK_KP_Prior then some (XK_Prior, maskIn)
  else if keysym = XK_KP_Next then some (XK_Next, maskIn)
  else if keysym = XK_KP_End then some (XK_End, maskIn)
  else if keysym = XK_KP_Insert then some (XK_Insert, maskIn)
  else if keysym = XK_KP_Delete then some (XK_Delete, maskIn)
  else if keysym = XK_ISO_Left_Tab then some (XK_Tab, maskIn ||| ShiftMask)
  else none

/-- CXWindowsSecondaryScreen::findKeyCode: translate the KeyID, apply the
Tab-to-left-tab swap when Shift is requested, look the keysym up in the
keycode map (falling back once through kpBackup), and return the keycode
with the computed output mask; none models the false return. -/
def findKeyCode (s : ScreenState) (id maskIn0 : Nat) : Option (Nat × Nat) :=
  let keysym0 := keysymForId id
  if keysym0 = 0 then none
  else
    let p := if keysym0 = XK_Tab ∧ maskIn0 &&& ShiftMask ≠ 0 then
               (XK_ISO_Left_Tab, andNot maskIn0 ShiftMask)
             else (keysym0, maskIn0)
    match s.m_keycodeMap p.1 with
    | some entry => some (entry.m_keycode, computeMaskOut s p.1 p.2 entry)
    | none =>
      match kpBackup p.1 p.2 with
      | none => none
      | some q =>
        match s.m_keycodeMap q.1 with
        | none => none
        | some entry => some (entry.m_keycode, computeMaskOut s q.1 q.2 entry)

/-- The half-duplex test at the head of CXWindowsSecondaryScreen::mapKey:
the key id is the caps-lock key and caps lock is half-duplex, or the
num-lock key and num lock is half-duplex. -/
def isHalfDuplexId (s : ScreenState) (id : Nat) : Bool :=
  (id == kKeyCapsLock && s.m_capsLockHalfDuplex) ||
  (id == kKeyNumLock && s.m_numLockHalfDuplex)

/-- The half-duplex test applied to a modifier bit inside the
modifier-adjustment loop of mapKey. -/
def isHalfDuplexBit (s : ScreenState) (bit : Nat) : Bool :=
  (bit == s.m_capsLockMask && s.m_capsLockHalfDuplex) ||
  (bit == s.m_numLockMask && s.m_numLockHalfDuplex)

/-- The deactivation scan for a level-style modifier inside mapKey's
adjustment loop: for every keycode slot of the modifier, a keycode that is
non-zero and recorded down in the shadow table gets a release keystroke,
with a press recorded on the undo list. -/
def scanRelease (s : ScreenState) (base : Nat) : List Keystroke × List Keystroke :=
  (List.range s.m_keysPerModifier).foldl
    (fun acc j =>
      let key := s.m_modifierToKeycode.getD (base + j) 0
      if key ≠ 0 ∧ s.m_keys key = true then
        (acc.1 ++ [⟨key, false, false⟩], acc.2 ++ [⟨key, true, false⟩])
      else acc)
    ([], [])

/-- The modifier-adjustment loop of CXWindowsSecondaryScreen::mapKey
(the for loop over the 8 modifier bits).  For each bit where the desired
mask differs from the current mask: take the first keycode of the modifier,
or the second when the first is zero (the raw array indexing of the C++
source, which for the last modifier of a one-key-per-modifier table reads
the next modifier's slot); when that is still zero the routine bails out —
modelled as Except.error carrying the keystrokes already accumulated, which
the C++ leaves in the caller's list.  Otherwise keystrokes activating or
deactivating the modifier are appended, with their inverses on the undo
list (toggles use a press+release pair both ways, half-duplex toggles a
single event, level modifiers a single press or the deactivation scan). -/
def modifierAdjustGo (s : ScreenState) (outMask : Nat) :
    List Nat → List Keystroke → List Keystroke →
    Except (List Keystroke) (List Keystroke × List Keystroke)
  | [], keys, undo => Except.ok (keys, undo)
  | i :: rest, keys, undo =>
    let bit := 1 <<< i
    if (outMask &&& bit) = (s.m_mask &&& bit) then
      modifierAdjustGo s outMask rest keys undo
    else
      let base := i * s.m_keysPerModifier
      let mk0 := s.m_modifierToKeycode.getD base 0
      let modifierKey := if mk0 = 0 then s.m_modifierToKeycode.getD (base + 1) 0 else mk0
      if modifierKey = 0 then Except.error keys
      else if (outMask &&& bit) ≠ 0 then
        if (bit &&& s.m_toggleModifierMask) ≠ 0 then
          if isHalfDuplexBit s bit then
            modifierAdjustGo s outMask rest
              (keys ++ [⟨modifierKey, true, false⟩])
              (undo ++ [⟨modifierKey, false, false⟩])
          else
            modifierAdjustGo s outMask rest
              (keys ++ [⟨modifierKey, true, false⟩, ⟨modifierKey, false, false⟩])
              (undo ++ [⟨modifierKey, false, false⟩, ⟨modifierKey, true, false⟩])
        else
          modifierAdjustGo s outMask rest
            (keys ++ [⟨modifierKey, true, false⟩])
            (undo ++ [⟨modifierKey, false, false⟩])
      else
        if (bit &&& s.m_toggleModifierMask) ≠ 0 then
          if isHalfDuplexBit s bit then
            modifierAdjustGo s outMask rest
              (keys ++ [⟨modifierKey, false, false⟩])
              (undo ++ [⟨modifierKey, true, false⟩])
          else
            modifierAdjustGo s outMask rest
              (keys ++ [⟨modifierKey, true, false⟩, ⟨modifierKey, false, false⟩])
              (undo ++ [⟨modifierKey, false, false⟩, ⟨modifierKey, true, false⟩])
        else
          let sr := scanRelease s base
          modifierAdjustGo s outMask rest (keys ++ sr.1) (undo ++ sr.2)

/-- The new-persistent-mask computation at the tail of
CXWindowsSecondaryScreen::mapKey: non-modifier keys and repeats leave the
mask unchanged; toggle bits flip on release (or always when half-duplex);
level bits are set on press; on release the bit is cleared only when no
keycode implementing the modifier is recorded down in the shadow table —
the scan iterates over all of the modifier's keycode slots and does not
exclude the keycode being released, despite the comment above it saying
"except keycode". -/
def computeNewMask (s : ScreenState) (idx : Option Nat) (isHalfDuplex : Bool)
    (action : EKeyAction) : Nat :=
  match idx with
  | none => s.m_mask
  | some mi =>
    if action = EKeyAction.kRepeat then s.m_mask
    else
      let modifierBit := 1 <<< mi
      if (modifierBit &&& s.m_toggleModifierMask) ≠ 0 then
        (if isHalfDuplex = true ∨ action = EKeyAction.kRelease then
           s.m_mask ^^^ modifierBit
         else s.m_mask)
      else if action = EKeyAction.kPress then s.m_mask ||| modifierBit
      else
        let down := (List.range s.m_keysPerModifier).any (fun j =>
          let k := s.m_modifierToKeycode.getD (mi * s.m_keysPerModifier + j) 0
          decide (k ≠ 0) && s.m_keys k)
        if down then s.m_mask else andNot s.m_mask modifierBit

/-- CXWindowsSecondaryScreen::mapKey: returns (new persistent mask,
keystroke list, keycode).  The keystroke list starts empty as in every
caller; the keycode component is 0 on the paths where the C++ leaves the
output parameter unassigned (its callers never read it then, since they
check the list for emptiness first).  Early soft-failure returns hand back
the current mask; the modifier-adjustment bail-out keeps the keystrokes
already accumulated in the caller's list.  The primary key event is a
single press or release, or a release+press pair flagged repeat for
kRepeat, followed by the undo list replayed in reverse. -/
def mapKey (s : ScreenState) (id mask : Nat) (action : EKeyAction) :
    Nat × List Keystroke × Nat :=
  let isHalfDuplex := isHalfDuplexId s id
  if isHalfDuplex = true ∧ action ≠ EKeyAction.kPress then (s.m_mask, [], 0)
  else
    match findKeyCode s id (maskToX s mask) with
    | none => (s.m_mask, [], 0)
    | some ko =>
      let keycode := ko.1
      let outMask := ko.2
      if (outMask &&& s.m_modifierMask) ≠ outMask then (s.m_mask, [], keycode)
      else
        let idx := s.m_keycodeToModifier keycode
        let isModifier := idx.isSome
        match (if outMask ≠ s.m_mask ∧ isModifier = false then
                 modifierAdjustGo s outMask (List.range 8) [] []
               else Except.ok ([], [])) with
        | Except.error partialKeys => (s.m_mask, partialKeys, keycode)
        | Except.ok p =>
          let action2 :=
            if isHalfDuplex = true ∧ (s.m_mask &&& (1 <<< idx.getD 0)) ≠ 0 then
              EKeyAction.kRelease
            else action
          let primary : List Keystroke :=
            match action2 with
            | EKeyAction.kPress => [⟨keycode, true, false⟩]
            | EKeyAction.kRelease => [⟨keycode, false, false⟩]
            | EKeyAction.kRepeat => [⟨keycode, false, true⟩, ⟨keycode, true, true⟩]
          (computeNewMask s idx isHalfDuplex action2,
           p.1 ++ primary ++ p.2.reverse, keycode)

/-- The iteration of CXWindowsSecondaryScreen::doKeystrokes over the
keystroke list: a keystroke flagged repeat starts a run (the maximal block
of consecutive repeat keystrokes) which is emitted count times; the count
variable is the function-local parameter and is left at zero afterwards, so
any later repeat run is emitted zero times; non-repeat keystrokes emit one
event each.  Fuel bounds the iterations; each step consumes at least one
list element, so fuel = keys.length + 1 (as supplied by doKeystrokes) is
always sufficient and the 0-fuel branch is unreachable. -/
def doKeystrokesAux : Nat → List Keystroke → Nat → List (Nat × Bool)
  | 0, _, _ => []
  | _ + 1, [], _ => []
  | fuel + 1, k :: ks, count =>
    if k.m_repeat then
      let run := (k :: ks).takeWhile (fun x => x.m_repeat)
      let after := (k :: ks).dropWhile (fun x => x.m_repeat)
      (List.replicate count run).flatten.map (fun x => (x.m_keycode, x.m_press)) ++
        doKeystrokesAux fuel after 0
    else
      (k.m_keycode, k.m_press) :: doKeystrokesAux fuel ks count

/-- CXWindowsSecondaryScreen::doKeystrokes: the ordered list of
XTestFakeKeyEvent calls (keycode, press) issued for a keystroke list and a
repeat count; nothing is emitted when the count is below one or the list is
empty.  Note the routine only emits events: it never touches the down-key
shadow table. -/
def doKeystrokes (keys : List Keystroke) (count : Int) : List (Nat × Bool) :=
  if count < 1 ∨ keys = [] then []
  else doKeystrokesAux (keys.length + 1) keys count.toNat

/-- CXWindowsSecondaryScreen::keyDown: map the key, store the returned mask,
and when keystrokes were produced replay them once and mark the primary
keycode down in the shadow table.  Returns the new state and the emitted
events. -/
def keyDown (s : ScreenState) (key mask : Nat) : ScreenState × List (Nat × Bool) :=
  let r := mapKey s key mask EKeyAction.kPress
  let s1 := { s with m_mask := r.1 }
  if r.2.1 = [] then (s1, [])
  else ({ s1 with m_keys := fun k => if k = r.2.2 then true else s.m_keys k },
        doKeystrokes r.2.1 1)

/-- CXWindowsSecondaryScreen::keyRepeat: map the key with kRepeat, store the
returned mask, and replay the keystrokes count times; the shadow table is
not touched. -/
def keyRepeat (s : ScreenState) (key mask : Nat) (count : Int) :
    ScreenState × List (Nat × Bool) :=
  let r := mapKey s key mask EKeyAction.kRepeat
  let s1 := { s with m_mask := r.1 }
  if r.2.1 = [] then (s1, [])
  else (s1, doKeystrokes r.2.1 count)

/-- CXWindowsSecondaryScreen::keyUp: map the key with kRelease, store the
returned mask, and when keystrokes were produced replay them once and mark
the primary keycode up in the shadow table. -/
def keyUp (s : ScreenState) (key mask : Nat) : ScreenState × List (Nat × Bool) :=
  let r := mapKey s key mask EKeyAction.kRelease
  let s1 := { s with m_mask := r.1 }
  if r.2.1 = [] then (s1, [])
  else ({ s1 with m_keys := fun k => if k = r.2.2 then false else s.m_keys k },
        doKeystrokes r.2.1 1)

/-- Modelled from the spec: the claimed bookkeeping "Every emitted keystroke
updates the per-keycode down/up shadow table" — fold the emitted events over
the table, setting each event's keycode entry to its press flag.  Defined
for comparison with the code's actual behaviour. -/
def applyEvents (table : Nat → Bool) (events : List (Nat × Bool)) : Nat → Bool :=
  events.foldl (fun t e => fun k => if k = e.1 then e.2 else t k) table

deriving instance DecidableEq for Except

/-- The request state entering the framing check for the C1 scenario:
method POST, HTTP/1.0, no headers parsed yet. -/
def c1Request0 : CHTTPRequest :=
  { emptyRequest with m_method := "POST".toList, m_majorVersion := 1, m_minorVersion := 0 }

/-- Header and body bytes presenting both Transfer-Encoding and
Content-Length on a POST, followed by a well-formed empty chunked body. -/
def c1Input : List Char :=
  "Transfer-Encoding:chunked\r\nContent-Length:3\r\n\r\n0\r\n\r\n".toList

/-- Claim C1 counterexample: a request whose method is POST (neither GET nor
HEAD) and whose headers include both Transfer-Encoding and Content-Length is
not rejected with 400 — parsing completes successfully, with
Transfer-Encoding taking precedence.  The framing check only rejects when
the absence of both framing headers disagrees with the method being
GET/HEAD, and with both present nothing is absent. -/
theorem c1_both_headers_not_rejected :
    readRequestAfterLine c1Request0 c1Input =
      Except.ok { c1Request0 with
        m_headers := ["chunked".toList, "3".toList],
        m_headerIndexByName :=
          [("Transfer-Encoding".toList, 0), ("Content-Length".toList, 1)] } ∧
    readRequestAfterLine c1Request0 c1Input ≠ Except.error 400 := by
  decide

/-- Claim C1 (amended): the framing check of readRequest rejects with 400
exactly when the absence of both framing headers differs from the method
being GET or HEAD; in particular a request whose method is not GET or HEAD
and which carries both Transfer-Encoding and Content-Length passes the
check. -/
theorem c1_framing_rule : ∀ (req : CHTTPRequest),
    req.m_method ≠ "GET".toList → req.m_method ≠ "HEAD".toList →
    (mapFind req.m_headerIndexByName ("Transfer-Encoding".toList)).isSome = true →
    (mapFind req.m_headerIndexByName ("Content-Length".toList)).isSome = true →
    framingMismatch req = false := by
  intro req hg hh hte hcl
  cases h1 : mapFind req.m_headerIndexByName ("Transfer-Encoding".toList) with
  | none => rw [h1] at hte; simp at hte
  | some a =>
    cases h2 : mapFind req.m_headerIndexByName ("Content-Length".toList) with
    | none => rw [h2] at hcl; simp at hcl
    | some b =>
      unfold framingMismatch
      rw [h1, h2, beq_eq_false_iff_ne.mpr hg, beq_eq_false_iff_ne.mpr hh]
      simp

/-- A request carrying both framing headers on a PUT method. -/
def c1WitnessReq : CHTTPRequest :=
  { emptyRequest with
    m_method := "PUT".toList,
    m_headers := ["chunked".toList, "3".toList],
    m_headerIndexByName := [("Transfer-Encoding".toList, 0), ("Content-Length".toList, 1)] }

/-- Witness for c1_framing_rule at a concrete request. -/
theorem c1_framing_rule_witness : framingMismatch c1WitnessReq = false :=
  c1_framing_rule c1WitnessReq (by decide) (by decide) (by decide) (by decide)

/-- Header bytes with a folded continuation line, from the spec's example. -/
def c2Input : List Char := "X-A: foo\r\n  bar\r\n\r\n".toList

/-- Claim C2 counterexample: parsing "X-A: foo" followed by the continuation
"  bar" stores the value " foo," — the value after the colon keeps its
leading space, and the continuation branch appends only a comma because the
statement meant to append the line is a no-op equality comparison — not the
claimed "foo,bar". -/
theorem c2_continuation_actual :
    readHeaders c2Input emptyRequest =
      Except.ok ({ emptyRequest with
        m_headers := [" foo,".toList],
        m_headerIndexByName := [("X-A".toList, 0)] }, []) ∧
    (" foo,".toList : List Char) ≠ "foo,bar".toList := by
  decide

/-- Claim C2 (amended): a header line beginning with a space or tab appends
exactly one comma to the previously stored header value and discards the
continuation line's own content; when there is no previous header it fails
with 400. -/
theorem c2_continuation_comma_only :
    ∀ (c : Char) (rest : List Char) (req : CHTTPRequest), c = ' ' ∨ c = '\t' →
    (req.m_headers = [] → processHeaderLine (c :: rest) req = Except.error 400) ∧
    (req.m_headers ≠ [] → processHeaderLine (c :: rest) req =
      Except.ok { req with m_headers := withLastComma req.m_headers }) := by
  intro c rest req hc
  have hcond : (c :: rest).head? = some ' ' ∨ (c :: rest).head? = some '\t' := by
    rcases hc with h | h <;> simp [h]
  constructor
  · intro h0
    simp only [processHeaderLine, if_pos hcond]
    rw [if_pos h0]
  · intro h0
    simp only [processHeaderLine, if_pos hcond]
    rw [if_neg h0]

/-- A request state holding one already-parsed header X-A with value
" foo". -/
def c2WitnessReq : CHTTPRequest :=
  { emptyRequest with
    m_headers := [" foo".toList],
    m_headerIndexByName := [("X-A".toList, 0)] }

/-- Witness for c2_continuation_comma_only at a concrete continuation. -/
theorem c2_continuation_comma_only_witness :
    processHeaderLine (' ' :: " bar".toList) c2WitnessReq =
      Except.ok { c2WitnessReq with m_headers := withLastComma c2WitnessReq.m_headers } :=
  (c2_continuation_comma_only ' ' " bar".toList c2WitnessReq (Or.inl rfl)).2 (by decide)

/-- Claim C3: the method "GE\x01T" contains the control character 0x01, yet
isValidToken accepts it (the token check searches for the whole punctuation
needle as a substring and its control-character tail is dead text behind an
embedded NUL), so the request-line checks pass instead of failing with
400. -/
theorem c3_control_char_method_accepted :
    isValidToken "GE\x01T".toList = true ∧
    requestLineCheck "GE\x01T".toList 1 0 = Except.ok () := by
  decide

/-- The request state entering the body phase for the C4 scenario: POST,
HTTP/1.0 (no Host requirement). -/
def c4Req0 : CHTTPRequest :=
  { emptyRequest with m_method := "POST".toList, m_majorVersion := 1, m_minorVersion := 0 }

/-- Header bytes declaring a chunked transfer followed by the spec's example
chunked body. -/
def c4Input : List Char :=
  "Transfer-Encoding:chunked\r\n\r\n4\r\nWiki\r\n5\r\npedia\r\n0\r\n\r\n".toList

/-- Claim C4: the chunked body "4\r\nWiki\r\n5\r\npedia\r\n0\r\n\r\n"
decodes through the chunk loop to "Wikipedia" (chunks concatenated in order
until the zero-size chunk, with the remaining bytes handed to the footer
header parse), and the whole post-request-line parse of such a request
succeeds with body "Wikipedia". -/
theorem c4_chunked_decode :
    readChunks "4\r\nWiki\r\n5\r\npedia\r\n0\r\n\r\n".toList =
      Except.ok ("Wikipedia".toList, crlf) ∧
    readRequestAfterLine c4Req0 c4Input =
      Except.ok { c4Req0 with
        m_headers := ["chunked".toList],
        m_headerIndexByName := [("Transfer-Encoding".toList, 0)],
        m_body := "Wikipedia".toList } := by
  decide

/-- The screen state for the C5 scenario: shift (modifier index 0, mask bit
0x1, level-style) is implemented by keycodes 50 and 62; the shadow table
records keycode 50 down — it is the very key about to be released, and
keyUp clears its entry only after mapKey has run — and keycode 62 up; the
current mask has the shift bit set; keysym 0xffe1 (Shift_L) resolves to
keycode 50. -/
def c5State : ScreenState :=
  { m_mask := 1, m_keys := fun k => k == 50, m_modifierMask := 1,
    m_toggleModifierMask := 0, m_numLockMask := 0, m_capsLockMask := 0,
    m_scrollLockMask := 0, m_capsLockHalfDuplex := false,
    m_numLockHalfDuplex := false, m_keysPerModifier := 2,
    m_modifierToKeycode := [50, 62, 0, 0, 0, 0, 0, 0, 0, 0, 0, 0, 0, 0, 0, 0],
    m_keycodeToModifier := fun k => if k = 50 ∨ k = 62 then some 0 else none,
    m_keycodeMap := fun ks => if ks = 0xffe1 then some ⟨50, 0, 0⟩ else none,
    convertCase := fun k => (k, k) }

/-- Claim C5: releasing the shift key (KeyID 0xefe1) in c5State returns
mask 1 — the shift bit is NOT cleared although the only other keycode
implementing the modifier (62) is up, because the release scan also counts
the keycode being released (50, still recorded down), contrary to the
code's own comment "except keycode". -/
theorem c5_release_keeps_bit :
    mapKey c5State 0xefe1 KeyModifierShift EKeyAction.kRelease =
      (1, [⟨50, false, false⟩], 50) ∧
    c5State.m_keys 50 = true ∧ c5State.m_keys 62 = false := by
  decide

/-- A 204 reply with a non-empty logical body. -/
def c6Reply : CHTTPReply :=
  { m_majorVersion := 1, m_minorVersion := 0, m_status := 204,
    m_reason := "No Content".toList, m_method := "GET".toList,
    m_headers := [], m_body := "abc".toList }

/-- A fixed Date value standing in for the system clock. -/
def c6Date : List Char := "Mon, 01 Jan 2001 00:00:00 GMT".toList

/-- Claim C6 counterexample: for a 204 reply with logical body "abc" the
writer emits no body bytes AND no Content-Length header at all — the
Content-Length line is only written when hasBody is true, so it is
suppressed together with the body, not sent as the claim states. -/
theorem c6_no_content_length_sent :
    seqFind (reply c6Date c6Reply).1 ("Content-Length".toList) = false ∧
    (reply c6Date c6Reply).2 = [] ∧ c6Reply.m_body ≠ [] := by
  decide

/-- Claim C6 (amended): for a reply whose status is 1xx, 204 or 304 the
writer suppresses the body bytes AND the Content-Length header: the output
is the header bytes built with hasBody = false (whose Content-Length
segment is the empty list) and an empty body write.  Content-Length with a
suppressed body occurs only for HEAD-method replies. -/
theorem c6_suppressed_reply_shape : ∀ (date : List Char) (r : CHTTPReply),
    (r.m_status / 100 = 1 ∨ r.m_status = 204 ∨ r.m_status = 304) →
    replyHasBody r.m_status = false ∧
    reply date r = (replyHeaderBytes date r false, []) := by
  intro date r h
  have hb : replyHasBody r.m_status = false := by
    rcases h with h | h | h
    · simp [replyHasBody, h]
    · simp only [replyHasBody, h]; decide
    · simp only [replyHasBody, h]; decide
  exact ⟨hb, by simp [reply, hb]⟩

/-- A 304 reply with a non-empty logical body. -/
def c6WitnessReply : CHTTPReply :=
  { m_majorVersion := 1, m_minorVersion := 0, m_status := 304,
    m_reason := "Not Modified".toList, m_method := "GET".toList,
    m_headers := [], m_body := "zz".toList }

/-- Witness for c6_suppressed_reply_shape at a concrete 304 reply. -/
theorem c6_suppressed_reply_shape_witness :
    replyHasBody c6WitnessReply.m_status = false ∧
    reply c6Date c6WitnessReply = (replyHeaderBytes c6Date c6WitnessReply false, []) :=
  c6_suppressed_reply_shape c6Date c6WitnessReply (by decide)

/-- The screen state for the C7 scenario: keysym 0x61 resolves to keycode
38, which implements no modifier; the shadow table is all-up. -/
def c7State : ScreenState :=
  { m_mask := 0, m_keys := fun _ => false, m_modifierMask := 0,
    m_toggleModifierMask := 0, m_numLockMask := 0, m_capsLockMask := 0,
    m_scrollLockMask := 0, m_capsLockHalfDuplex := false,
    m_numLockHalfDuplex := false, m_keysPerModifier := 1,
    m_modifierToKeycode := [0, 0, 0, 0, 0, 0, 0, 0],
    m_keycodeToModifier := fun _ => none,
    m_keycodeMap := fun ks => if ks = 0x61 then some ⟨38, 0, 3⟩ else none,
    convertCase := fun k => (k, k) }

/-- Claim C7 counterexample: a keyRepeat in c7State emits the release+press
pair for keycode 38, yet the shadow table entry for 38 is still false
afterwards, while folding the emitted keystrokes over the table (the
claimed per-event update) would leave it true: the replay does not update
the table. -/
theorem c7_replay_skips_shadow_table :
    (keyRepeat c7State 0x61 0 1).2 = [(38, false), (38, true)] ∧
    (keyRepeat c7State 0x61 0 1).1.m_keys 38 = false ∧
    applyEvents c7State.m_keys (keyRepeat c7State 0x61 0 1).2 38 = true := by
  decide

/-- Claim C7 (amended): the keystroke replay itself never writes the
down-key shadow table.  keyRepeat leaves the table untouched; keyDown and
keyUp update exactly one entry — the primary keycode returned by mapKey —
to down resp. up, and only when keystrokes were produced; entries touched by
modifier-adjustment or undo keystrokes are not updated. -/
theorem c7_shadow_table_updates :
    ∀ (s : ScreenState) (key mask : Nat) (count : Int),
    (keyRepeat s key mask count).1.m_keys = s.m_keys ∧
    (∀ kc, (keyDown s key mask).1.m_keys kc =
      (if (mapKey s key mask EKeyAction.kPress).2.1 ≠ [] ∧
          kc = (mapKey s key mask EKeyAction.kPress).2.2
       then true else s.m_keys kc)) ∧
    (∀ kc, (keyUp s key mask).1.m_keys kc =
      (if (mapKey s key mask EKeyAction.kRelease).2.1 ≠ [] ∧
          kc = (mapKey s key mask EKeyAction.kRelease).2.2
       then false else s.m_keys kc)) := by
  intro s key mask count
  refine ⟨?_, ?_, ?_⟩
  · unfold keyRepeat
    dsimp only
    split <;> rfl
  · intro kc
    unfold keyDown
    dsimp only
    split
    · rename_i h0
      simp [h0]
    · rename_i h0
      by_cases hk : kc = (mapKey s key mask EKeyAction.kPress).2.2
      · simp [h0, hk]
      · simp [h0, hk]
  · intro kc
    unfold keyUp
    dsimp only
    split
    · rename_i h0
      simp [h0]
    · rename_i h0
      by_cases hk : kc = (mapKey s key mask EKeyAction.kRelease).2.2
      · simp [h0, hk]
      · simp [h0, hk]

/-- The screen state for the C8 scenario: shift (modifier 0) is available
with keycode 50; modifier bit 0x2 is set in the current mask but has no
implementing keycode; keysym 0x41 (A) resolves to keycode 38 requiring
shift. -/
def c8State : ScreenState :=
  { m_mask := 2, m_keys := fun _ => false, m_modifierMask := 1,
    m_toggleModifierMask := 0, m_numLockMask := 0, m_capsLockMask := 0,
    m_scrollLockMask := 0, m_capsLockHalfDuplex := false,
    m_numLockHalfDuplex := false, m_keysPerModifier := 2,
    m_modifierToKeycode := [50, 0, 0, 0, 0, 0, 0, 0, 0, 0, 0, 0, 0, 0, 0, 0],
    m_keycodeToModifier := fun k => if k = 50 then some 0 else none,
    m_keycodeMap := fun ks => if ks = 0x41 then some ⟨38, 1, 3⟩ else none,
    convertCase := fun k => (k, k) }

/-- Claim C8 counterexample: pressing A in c8State needs shift on (bit 0x1,
adjustable) and bit 0x2 off (no implementing keycode, so the adjustment
loop bails out) — mapKey returns the unchanged mask 2 but the keystroke
list is NOT empty: the shift press queued before the bail-out remains. -/
theorem c8_bail_keeps_partial_keys :
    mapKey c8State 0x41 KeyModifierShift EKeyAction.kPress =
      (2, [⟨50, true, false⟩], 38) ∧
    c8State.m_mask = 2 ∧ ([⟨50, true, false⟩] : List Keystroke) ≠ [] := by
  decide

/-- Claim C8 (amended): the soft failures of mapKey never raise an error
and always return the unchanged current mask; the keystroke list is empty
when no keycode resolves or when the required mask is not a subset of the
available modifier mask, but when the modifier-adjustment loop bails out
over a modifier with no implementing keycode the keystrokes already
accumulated for earlier modifier bits remain in the output list. -/
theorem c8_soft_failure_mask :
    ∀ (s : ScreenState) (id mask : Nat) (action : EKeyAction),
    (findKeyCode s id (maskToX s mask) = none →
      (mapKey s id mask action).1 = s.m_mask ∧ (mapKey s id mask action).2.1 = []) ∧
    (∀ kc om, findKeyCode s id (maskToX s mask) = some (kc, om) →
      (om &&& s.m_modifierMask) ≠ om →
      (mapKey s id mask action).1 = s.m_mask ∧ (mapKey s id mask action).2.1 = []) ∧
    (∀ kc om pk, isHalfDuplexId s id = false →
      findKeyCode s id (maskToX s mask) = some (kc, om) →
      (om &&& s.m_modifierMask) = om → om ≠ s.m_mask →
      s.m_keycodeToModifier kc = none →
      modifierAdjustGo s om (List.range 8) [] [] = Except.error pk →
      mapKey s id mask action = (s.m_mask, pk, kc)) := by
  intro s id mask action
  refine ⟨?_, ?_, ?_⟩
  · intro h
    by_cases hd : isHalfDuplexId s id = true ∧ action ≠ EKeyAction.kPress
    · constructor <;> simp [mapKey, hd]
    · constructor <;> simp [mapKey, hd, h]
  · intro kc om h hsub
    by_cases hd : isHalfDuplexId s id = true ∧ action ≠ EKeyAction.kPress
    · constructor <;> simp [mapKey, hd]
    · constructor <;> simp [mapKey, hd, h, hsub]
  · intro kc om pk hhd h hsub hneq hidx hadj
    have hd : ¬ (isHalfDuplexId s id = true ∧ action ≠ EKeyAction.kPress) := by
      simp [hhd]
    simp [mapKey, hd, h, hsub, hidx, hneq, hadj]

/-- A screen state with nothing mapped at all and current mask 3. -/
def c8TrivialState : ScreenState :=
  { m_mask := 3, m_keys := fun _ => false, m_modifierMask := 0,
    m_toggleModifierMask := 0, m_numLockMask := 0, m_capsLockMask := 0,
    m_scrollLockMask := 0, m_capsLockHalfDuplex := false,
    m_numLockHalfDuplex := false, m_keysPerModifier := 1,
    m_modifierToKeycode := [0, 0, 0, 0, 0, 0, 0, 0],
    m_keycodeToModifier := fun _ => none,
    m_keycodeMap := fun _ => none,
    convertCase := fun k => (k, k) }

/-- A screen state where keysym 0x61 resolves to keycode 38 requiring
shift, but no modifier keycode exists at all (empty available mask). -/
def c8SubsetState : ScreenState :=
  { m_mask := 4, m_keys := fun _ => false, m_modifierMask := 0,
    m_toggleModifierMask := 0, m_numLockMask := 0, m_capsLockMask := 0,
    m_scrollLockMask := 0, m_capsLockHalfDuplex := false,
    m_numLockHalfDuplex := false, m_keysPerModifier := 1,
    m_modifierToKeycode := [0, 0, 0, 0, 0, 0, 0, 0],
    m_keycodeToModifier := fun _ => none,
    m_keycodeMap := fun ks => if ks = 0x61 then some ⟨38, 1, 0⟩ else none,
    convertCase := fun k => (k, k) }

/-- Witness for c8_soft_failure_mask: one concrete instance of each of the
three soft-failure paths. -/
theorem c8_soft_failure_mask_witness :
    ((mapKey c8TrivialState 0xaaaa 0 EKeyAction.kPress).1 = c8TrivialState.m_mask ∧
     (mapKey c8TrivialState 0xaaaa 0 EKeyAction.kPress).2.1 = []) ∧
    ((mapKey c8SubsetState 0x61 0 EKeyAction.kPress).1 = c8SubsetState.m_mask ∧
     (mapKey c8SubsetState 0x61 0 EKeyAction.kPress).2.1 = []) ∧
    mapKey c8State 0x41 KeyModifierShift EKeyAction.kPress =
      (c8State.m_mask, [⟨50, true, false⟩], 38) :=
  ⟨(c8_soft_failure_mask c8TrivialState 0xaaaa 0 EKeyAction.kPress).1 (by decide),
   (c8_soft_failure_mask c8SubsetState 0x61 0 EKeyAction.kPress).2.1 38 1
     (by decide) (by decide),
   (c8_soft_failure_mask c8State 0x41 KeyModifierShift EKeyAction.kPress).2.2 38 1
     [⟨50, true, false⟩] (by decide) (by decide) (by decide) (by decide)
     (by decide) (by decide)⟩

/-- Claim C9 counterexample: a parsed version with major 2 and minor -1 IS
rejected with 400 by the version check — the code tests minorVersion < 0
independently of the major version, so "major ≥ 2 with negative minor is
not rejected" is false. -/
theorem c9_major2_negative_minor_rejected :
    requestLineCheck "GET".toList 2 (-1) = Except.error 400 := by
  decide

/-- Claim C9 (amended): for any method passing the token check, the
request-line version check rejects with 400 exactly when major < 1 or
minor < 0 — the minor bound applies for every major version. -/
theorem c9_version_check_rule :
    ∀ (method : List Char) (major minor : Int), isValidToken method = true →
    (requestLineCheck method major minor = Except.error 400 ↔
      (major < 1 ∨ minor < 0)) := by
  intro method major minor hv
  by_cases h : major < 1 ∨ minor < 0
  · simp [requestLineCheck, hv, h]
  · simp [requestLineCheck, hv, h]

/-- Witness for c9_version_check_rule at a concrete rejected version. -/
theorem c9_version_check_rule_witness :
    isValidToken "PUT".toList = true ∧
    requestLineCheck "PUT".toList 0 0 = Except.error 400 :=
  ⟨by decide, (c9_version_check_rule "PUT".toList 0 0 (by decide)).mpr (by decide)⟩

/-- Claim C10: a header line whose first character is the colon parses with
the empty name: the token check accepts the empty string (it cannot contain
the 18-character needle), so the entry is stored in the header list and the
index map instead of being rejected with 400. -/
theorem c10_empty_header_name :
    ∀ (v : List Char) (req : CHTTPRequest),
    mapFind req.m_headerIndexByName [] = none →
    isValidToken [] = true ∧
    processHeaderLine (':' :: v) req =
      Except.ok { req with
        m_headerIndexByName := req.m_headerIndexByName ++ [([], req.m_headers.length)],
        m_headers := req.m_headers ++ [v] } := by
  intro v req h
  have hcond : ¬ ((':' :: v).head? = some ' ' ∨ (':' :: v).head? = some '\t') := by
    simp
  have hv : isValidToken ([] : List Char) = true := by decide
  refine ⟨hv, ?_⟩
  simp only [processHeaderLine]
  rw [if_neg hcond]
  simp [h, hv]

/-- Witness for c10_empty_header_name at the line ":x" on a fresh
request. -/
theorem c10_empty_header_name_witness :
    isValidToken [] = true ∧
    processHeaderLine (':' :: "x".toList) emptyRequest =
      Except.ok { emptyRequest with
        m_headerIndexByName := emptyRequest.m_headerIndexByName ++
          [([], emptyRequest.m_headers.length)],
        m_headers := emptyRequest.m_headers ++ ["x".toList] } :=
  c10_empty_header_name "x".toList emptyRequest (by decide)
